import Mathlib

/-!
Shallow embedding of `boxmot/appearance/reid_auto_backend.py` (class
`ReidAutoBackend`) and verification of the specification's claims about it.

Python exceptions, process exit and logging are made explicit: a call either
returns a value, raises an exception (`NameError`, `AttributeError`,
`IndexError`, or an exception coming out of a delegated backend method), or
terminates the process via `exit()`; alongside, it produces the ordered list
of messages passed to `LOGGER.error`.
-/

namespace Boxmot

/-- Exceptions that the embedded code can raise. `nameError n` models Python's
`NameError` on reading an unbound name `n`; `attributeError n` models
`AttributeError` on reading a missing attribute `n`; `indexError` models
indexing an empty list; `backendError m` stands for an arbitrary exception
raised inside a delegated backend method. -/
inductive PyExc where
  | nameError (n : String)
  | attributeError (n : String)
  | indexError
  | backendError (m : String)
deriving DecidableEq

/-- Result of running a piece of the embedded Python: a normal value, a raised
exception, or process termination via `exit()`. -/
inductive Outcome (α : Type) where
  | ok (a : α)
  | raised (e : PyExc)
  | exited
deriving DecidableEq

/-- Map over the value of a normal outcome. -/
def Outcome.map {α β : Type} (f : α → β) : Outcome α → Outcome β
  | .ok a => .ok (f a)
  | .raised e => .raised e
  | .exited => .exited

/-- View an `Except` value (result of a delegated backend call) as an outcome. -/
def exceptToOutcome {α : Type} : Except PyExc α → Outcome α
  | .ok a => .ok a
  | .error e => .raised e

/-- `str.lower()` on the ASCII strings this module handles, character by
character. (Implemented directly over the character list so that the kernel
can evaluate it.) -/
def pyLower (s : String) : String :=
  String.mk (s.toList.map Char.toLower)

/-- Split a character list on `/`, keeping empty segments. -/
def splitSlash : List Char → List (List Char)
  | [] => [[]]
  | c :: cs =>
    if c = '/' then [] :: splitSlash cs
    else
      match splitSlash cs with
      | [] => [[c]]
      | g :: gs => (c :: g) :: gs

/-- The final path component, as `pathlib.PurePath.name`: the last nonempty
`/`-separated segment (empty for a root or empty path). -/
def pyNameChars (p : String) : List Char :=
  (((splitSlash p.toList).filter (fun s => s ≠ [])).getLast?).getD []

/-- Index of the last occurrence of `.` in a list of characters, as Python's
`str.rfind`, or `none` when absent. -/
def rfindDot : List Char → Option Nat
  | [] => none
  | c :: cs =>
    match rfindDot cs with
    | some i => some (i + 1)
    | none => if c = '.' then some 0 else none

/-- `pathlib.PurePath.suffix`: with `name` the final component and `i` the
index of its last dot, the substring from `i` when `0 < i < len(name) - 1`,
else the empty string. So `"a.pt"` gives `".pt"`, while `"model"`,
`".hidden"` and `"a."` give `""`. -/
def pySuffix (p : String) : String :=
  match rfindDot (pyNameChars p) with
  | some i =>
    if 0 < i ∧ i + 1 < (pyNameChars p).length then String.mk ((pyNameChars p).drop i)
    else ""
  | none => ""

/-- Names bound at module scope of `reid_auto_backend.py`: the imported names
(lines 1-14) and the class itself. Neither `file_path` nor `framework_dict`
is among them. -/
def moduleGlobals : List String :=
  ["torch", "Path", "Union", "Tuple", "WEIGHTS", "LOGGER", "export_formats",
   "ONNXBackend", "OpenVinoBackend", "PyTorchBackend", "TensorRTBackend",
   "TFLiteBackend", "TorchscriptBackend", "BaseModelBackend", "ReidAutoBackend"]

/-- The parameters of `identify_framework` (line 104: `self`, `path`) together
with every name assigned anywhere in its body (`file_extension`,
`framework_presence`, and the loop targets `framework`, `is_present`). The
names `file_path` (read on line 105) and `framework_dict` (read on line 133)
are in neither this list nor `moduleGlobals`, so reading them raises
`NameError`. -/
def identifyFrameworkLocalNames : List String :=
  ["self", "path", "file_extension", "framework_presence", "framework", "is_present"]

/-- Shallow embedding of `ReidAutoBackend.identify_framework`
(reid_auto_backend.py, lines 104-138). Its first statement is
`file_extension = file_path.suffix.lower()`; the name `file_path` is not the
parameter (which is named `path`), is assigned nowhere in the body, and is not
bound at module scope (see `identifyFrameworkLocalNames` and `moduleGlobals`),
so Python raises `NameError` on every call, with nothing logged. The remainder
of the body is dead code, embedded separately as
`identifyFrameworkDeadCode`. -/
def identify_framework (path : String) : List String × Outcome (Option String) :=
  ([], .raised (.nameError "file_path"))

/-- The `framework_presence` dictionary literal of lines 109-116, as an
insertion-ordered association list: all six flags start `False`. -/
def baseFrameworkPresence : List (String × Bool) :=
  [("pytorch", false), ("tensorrt", false), ("onnx", false),
   ("torchscript", false), ("openvino", false), ("tflite", false)]

/-- Update one key of an insertion-ordered dictionary, keeping order. -/
def dictSet (d : List (String × Bool)) (k : String) (v : Bool) : List (String × Bool) :=
  d.map (fun kv => if kv.1 = k then (kv.1, v) else kv)

/-- The loop of lines 133-138 under the counterfactual reading
`framework_dict := framework_presence`: the first pair already decides the
result, since the `else` of lines 136-138 is attached to the
`if is_present` inside the loop body. A `True` first flag returns that
framework; a `False` first flag logs `"Framework now found"` and exits. An
empty dictionary (never built by the code) would fall off the loop and
return `None`. -/
def frameworkLoop : List (String × Bool) → List String × Outcome (Option String)
  | [] => ([], .ok none)
  | (framework, true) :: _ => ([], .ok (some framework))
  | (_, false) :: _ => (["Framework now found"], .exited)

/-- Lines 133-138 of `identify_framework`, as reached after the dictionary has
been built: the loop header reads `framework_dict`, a name assigned nowhere
(the dictionary built on lines 109-131 is named `framework_presence`) and not
bound at module scope, so `NameError` is raised before the loop body runs.
`frameworkLoop` records what the loop would do were the name bound. -/
def frameworkDictStep (framework_presence : List (String × Bool)) :
    List String × Outcome (Option String) :=
  ([], .raised (.nameError "framework_dict"))

/-- Lines 106-138 of `identify_framework`, as a function of the extension
value that line 105 would bind to `file_extension` (a lowercased suffix).
This code is unreachable in the source - line 105 itself raises `NameError`
(see `identify_framework`) - and is recorded to document the dead dispatch:
the `if`/`elif` chain of lines 119-131 sets one flag for the supported
extensions and, in its `else` branch, logs an error and calls `exit()`. -/
def identifyFrameworkDeadCode (file_extension : String) :
    List String × Outcome (Option String) :=
  if file_extension = ".pt" ∨ file_extension = ".pth" then
    frameworkDictStep (dictSet baseFrameworkPresence "pytorch" true)
  else if file_extension = ".onnx" then
    frameworkDictStep (dictSet baseFrameworkPresence "onnx" true)
  else if file_extension = ".torchscript" then
    frameworkDictStep (dictSet baseFrameworkPresence "torchscript" true)
  else if file_extension = ".xml" then
    frameworkDictStep (dictSet baseFrameworkPresence "openvino" true)
  else if file_extension = ".plan" ∨ file_extension = ".engine" then
    frameworkDictStep (dictSet baseFrameworkPresence "tensorrt" true)
  else
    (["This model framework is not supported yet!"], .exited)

/-- The `weights` argument of the constructor: a single path (a `str` or
`pathlib.Path`, both modeled as a string) or a list of paths. -/
inductive Weights where
  | single (p : String)
  | list (ps : List String)
deriving DecidableEq

/-- Line 32: `w = weights[0] if isinstance(weights, list) else weights`.
Indexing an empty list raises `IndexError`. -/
def firstWeight : Weights → Except PyExc String
  | .single p => .ok p
  | .list [] => .error .indexError
  | .list (p :: _) => .ok p

/-- Interface of a delegated backend object, the external collaborator: each
method consumes a batch and either returns normally or raises. `B` is the
type of image batches, `F` the type of feature batches. -/
structure Backend (B F : Type) where
  preprocess_input : B → Except PyExc B
  get_features : B → Except PyExc F

/-- The state of a `ReidAutoBackend` instance. The fields `framework`,
`weights`, `device`, `half` are the attributes assigned by `__init__`
(lines 34-37); `framework` holds whatever `identify_framework` returned (a
string or `None`). The `backend` field models the instance attribute
`backend` read by `forward` (line 81): no method of the class ever assigns
it, so on any instance produced by the class it is absent (`none`); `some`
models an attribute set by external code. `ReidBackend` abbreviates the type
of that attribute's value. -/
structure Selector (ReidBackend : Type) where
  framework : Option String
  weights : Weights
  device : String
  half : Bool
  backend : Option ReidBackend
deriving DecidableEq

/-- The attribute names present on a `ReidAutoBackend` instance: those
assigned by `__init__` (lines 34-37) plus `backend` when external code set
it. In particular none of `pt`, `torchscript`, `onnx`, `tensorrt`,
`openvino`, `tflite` (read by `get_backend`, lines 53-59) is ever present. -/
def instanceAttrs {RB : Type} (s : Selector RB) : List String :=
  ["framework", "weights", "device", "half"] ++
    (match s.backend with
     | some _ => ["backend"]
     | none => [])

/-- Shallow embedding of `ReidAutoBackend.__init__` (lines 18-37): normalize
`weights` to its first element `w` when it is a list (line 32), compute
`self.framework = self.identify_framework(w)` (line 34), then store
`weights`, `device`, `half` (lines 35-37). Since `identify_framework` raises
`NameError` on every call (see its docstring), construction always
propagates that exception and no instance is ever produced; the `.ok` branch
records the state the assignments would build. -/
def construct {RB : Type} (weights : Weights) (device : String) (half : Bool) :
    List String × Outcome (Selector RB) :=
  match firstWeight weights with
  | .error e => ([], .raised e)
  | .ok w =>
    match identify_framework w with
    | (logs, .ok fw) => (logs, .ok ⟨fw, weights, device, half, none⟩)
    | (logs, .raised e) => (logs, .raised e)
    | (logs, .exited) => (logs, .exited)

/-- The logs and the framework component of a construction result: what the
constructor's `identify_framework` call contributed, the stored `weights`,
`device` and `half` projected away. -/
def frameworkOf {RB : Type} (r : List String × Outcome (Selector RB)) :
    List String × Outcome (Option String) :=
  (r.1, r.2.map Selector.framework)

/-- The value `get_backend` would return: one of the six backend objects,
tagged by its class and carrying the constructor arguments
`(self.weights, self.device, self.half)` of line 64. -/
inductive BackendInstance where
  | pytorch (weights : Weights) (device : String) (half : Bool)
  | torchscript (weights : Weights) (device : String) (half : Bool)
  | onnx (weights : Weights) (device : String) (half : Bool)
  | tensorrt (weights : Weights) (device : String) (half : Bool)
  | openvino (weights : Weights) (device : String) (half : Bool)
  | tflite (weights : Weights) (device : String) (half : Bool)
deriving DecidableEq

/-- The entries of the `backend_map` list literal (lines 52-60), as pairs of
the attribute name each condition reads and the corresponding constructor.
Recorded for reference: evaluating the literal crashes on its first entry
(see `get_backend`), so the table is never actually built. -/
def backend_map_entries : List (String × (Weights → String → Bool → BackendInstance)) :=
  [("pt", BackendInstance.pytorch),
   ("torchscript", BackendInstance.torchscript),
   ("onnx", BackendInstance.onnx),
   ("tensorrt", BackendInstance.tensorrt),
   ("openvino", BackendInstance.openvino),
   ("tflite", BackendInstance.tflite)]

/-- Shallow embedding of `ReidAutoBackend.get_backend` (lines 40-68). Its
first statement builds `backend_map = [(self.pt, PyTorchBackend), ...]`;
evaluating the first element reads `self.pt`, an attribute in neither
`instanceAttrs` nor the class, so `AttributeError` is raised with nothing
logged and nothing further executes. (Were all six attributes present, line
62 - `for condition, backend_class in backend_map.items()` - would itself
raise `AttributeError` on `items`, since `backend_map` is a list.) No
backend is ever constructed, `self.framework` is never consulted, nothing is
assigned to `self`, and the final log-and-exit of lines 67-68 is
unreachable. -/
def get_backend {RB : Type} (s : Selector RB) : List String × Outcome BackendInstance :=
  ([], .raised (.attributeError "pt"))

/-- Shallow embedding of `ReidAutoBackend.forward` (lines 71-82):
`im_batch = self.backend.preprocess_input(im_batch)` then
`return self.backend.get_features(im_batch)`. Reading `self.backend` raises
`AttributeError` when the attribute is absent; a raised backend exception
propagates unchanged, there being no handler in the body. -/
def forward {B F : Type} (s : Selector (Backend B F)) (im_batch : B) : Outcome F :=
  match s.backend with
  | none => .raised (.attributeError "backend")
  | some bk =>
    match bk.preprocess_input im_batch with
    | .error e => .raised e
    | .ok im2 =>
      match bk.get_features im2 with
      | .error e => .raised e
      | .ok out => .ok out

/-- The `file` argument of `check_suffix`: a single path (`str` or `Path`)
or a list of paths (line 96). -/
inductive FileArg where
  | single (f : String)
  | list (fs : List String)
deriving DecidableEq

/-- The `suffix` argument of `check_suffix`: a single string or a tuple of
strings (line 95). -/
inductive SuffixArg where
  | str (s : String)
  | tuple (ss : List String)
deriving DecidableEq

/-- Line 95: `suffix = [suffix] if isinstance(suffix, str) else list(suffix)`. -/
def normSuffixes : SuffixArg → List String
  | .str s => [s]
  | .tuple ss => ss

/-- Line 96: `files = [file] if isinstance(file, (str, Path)) else list(file)`. -/
def normFiles : FileArg → List String
  | .single f => [f]
  | .list fs => fs

/-- Lines 99-100, the per-file test: with
`file_suffix = Path(f).suffix.lower()` (line 99), the file is flagged when
`file_suffix and file_suffix not in suffix` (line 100) - that is, its
lowercased suffix is nonempty and not an element of the accepted list, the
accepted list being compared as given, without lowercasing. -/
def flagged (accepted : List String) (f : String) : Bool :=
  !(pyLower (pySuffix f) == "") && !(accepted.contains (pyLower (pySuffix f)))

/-- The message logged on line 101 for a flagged file. (The Python f-string
interpolates `f` and the list `suffix`; the list's rendering is abbreviated
to its comma-separated elements.) -/
def suffixErrMsg (f : String) (accepted : List String) : String :=
  "File " ++ f ++ " does not have an acceptable suffix. Expected: " ++
    String.intercalate ", " accepted

/-- Shallow embedding of `ReidAutoBackend.check_suffix` (lines 85-101):
normalize the two arguments (lines 95-96), then log one error message per
flagged file (lines 98-101). Every name the body reads is bound (`suffix`,
`file`, `files`, `f`, `file_suffix` locally; `Path`, `LOGGER` at module
scope) and the body contains no `raise` and no `exit()`, so the call always
returns normally (`.ok ()`) whatever the arguments; the `msg` parameter is
accepted and never used. -/
def check_suffix (file : FileArg) (suffix : SuffixArg) (msg : String) :
    List String × Outcome Unit :=
  ((normFiles file).filterMap (fun f =>
      if flagged (normSuffixes suffix) f then
        some (suffixErrMsg f (normSuffixes suffix))
      else none),
   .ok ())

/-- A concrete stub backend over natural-number batches, used to exercise
`forward`. -/
def stubBackend : Backend Nat Nat :=
  ⟨fun n => .ok (n + 1), fun n => .ok (n * 2)⟩

/-- A selector state carrying `stubBackend` as an externally set `backend`
attribute. -/
def stubSelector : Selector (Backend Nat Nat) :=
  ⟨some "pytorch", .single "model.pt", "cpu", false, some stubBackend⟩

/-- The selector state that `__init__` would build for `model.pt` were its
`identify_framework` call to return `"pytorch"`: the state of the claims
about `get_backend`. -/
def pytorchSelector : Selector Unit :=
  ⟨some "pytorch", .single "model.pt", "cpu", false, none⟩

end Boxmot

namespace Boxmot

example : pySuffix "a.pt" = ".pt" := by decide
example : pySuffix "model" = "" := by decide
example : pySuffix "dir/model.ONNX" = ".ONNX" := by decide
example : pyLower (pySuffix "MODEL.ONNX") = ".onnx" := by decide
example : pySuffix ".hidden" = "" := by decide
example : pySuffix "a." = "" := by decide
example : identifyFrameworkDeadCode ".json"
    = (["This model framework is not supported yet!"], .exited) := by decide
example : identifyFrameworkDeadCode ".onnx"
    = ([], .raised (.nameError "framework_dict")) := by decide
example : frameworkLoop (dictSet baseFrameworkPresence "onnx" true)
    = (["Framework now found"], .exited) := by decide

/-- Evidence for the `NameError` in `identify_framework`: the name
`file_path` read on line 105 and the name `framework_dict` read on line 133
are bound neither among the function's parameters and assigned locals nor at
module scope. -/
theorem file_path_and_framework_dict_unbound :
    identifyFrameworkLocalNames.contains "file_path" = false
  ∧ moduleGlobals.contains "file_path" = false
  ∧ identifyFrameworkLocalNames.contains "framework_dict" = false
  ∧ moduleGlobals.contains "framework_dict" = false := by decide

/-- Evidence for the `AttributeError` in `get_backend`: no selector state
ever carries an attribute named `pt`. -/
theorem pt_never_an_attribute {RB : Type} (s : Selector RB) :
    (instanceAttrs s).contains "pt" = false := by
  unfold instanceAttrs
  cases s.backend <;> rfl

/-- The number of messages `check_suffix` logs equals the number of files its
line-100 test flags. -/
theorem check_suffix_log_count (file : FileArg) (suffix : SuffixArg) (msg : String) :
    (check_suffix file suffix msg).1.length
      = ((normFiles file).filter (flagged (normSuffixes suffix))).length := by
  show (List.filterMap _ _).length = _
  induction normFiles file with
  | nil => rfl
  | cons a t ih =>
    by_cases h : flagged (normSuffixes suffix) a
      <;> simp [List.filterMap_cons, List.filter_cons, h, ih]

/-- Claim C1: the specification says `identify_framework` is a pure,
case-insensitive function of the path's extension returning `pytorch` for
`.pt`/`.pth`, `onnx` for `.onnx`, `torchscript` for `.torchscript`,
`openvino` for `.xml` and `tensorrt` for `.plan`/`.engine`. The code
instead raises `NameError` on every call, `.onnx` included: line 105 reads
the unbound name `file_path`. Moreover, were that name read as the parameter
`path`, line 133 would read the unbound `framework_dict`; and were that in
turn read as `framework_presence`, the loop of lines 133-138 would log and
exit instead of returning `onnx`, since the first dictionary entry,
`pytorch`, is `False`. -/
theorem identify_framework_c1_raises :
    identify_framework "model.onnx" = ([], .raised (.nameError "file_path"))
  ∧ identifyFrameworkDeadCode ".onnx" = ([], .raised (.nameError "framework_dict"))
  ∧ frameworkLoop (dictSet baseFrameworkPresence "onnx" true)
      = (["Framework now found"], .exited) := by decide

/-- Claim C2: the specification says an unsupported extension such as `.json`
makes construction log a descriptive error and terminate the process. The
code instead raises `NameError` with nothing logged, before the extension is
ever examined (line 105 reads the unbound `file_path`); the intended
log-and-exit branch exists only in the dead code of lines 127-131. -/
theorem construct_c2_unsupported_extension :
    @construct Unit (.single "model.json") "cpu" false
      = ([], .raised (.nameError "file_path"))
  ∧ identifyFrameworkDeadCode ".json"
      = (["This model framework is not supported yet!"], .exited) := by decide

/-- Claim C3: the specification says `get_backend` looks the stored framework
identifier up in the (identifier, constructor) table and returns a
`PyTorchBackend(weights, device, half)` for a native-identified selector.
The code instead raises `AttributeError` on `self.pt` while building
`backend_map` (line 53), before any lookup; and construction itself already
raises `NameError`, so no selector is ever produced to call it on. -/
theorem get_backend_c3_attribute_error :
    (@construct Unit (.single "model.pt") "cpu" false).2
      = .raised (.nameError "file_path")
  ∧ get_backend pytorchSelector = ([], .raised (.attributeError "pt")) := by decide

/-- Claim C4: on a selector whose `backend` attribute is bound to `bk`,
`forward(im)` returns exactly `bk.get_features(bk.preprocess_input(im))` -
the composition in that order, with a failure of either call propagating
unchanged. -/
theorem forward_c4_delegates {B F : Type} (s : Selector (Backend B F))
    (bk : Backend B F) (im : B) (h : s.backend = some bk) :
    forward s im = exceptToOutcome ((bk.preprocess_input im).bind bk.get_features) := by
  cases hp : bk.preprocess_input im with
  | error e =>
    simp [forward, h, hp, exceptToOutcome, Except.bind]
  | ok x =>
    cases hg : bk.get_features x with
    | error e => simp [forward, h, hp, hg, exceptToOutcome, Except.bind]
    | ok out => simp [forward, h, hp, hg, exceptToOutcome, Except.bind]

/-- Witness for claim C4 at a concrete stub backend and batch. -/
theorem forward_c4_delegates_witness :
    stubSelector.backend = some stubBackend
  ∧ forward stubSelector 3
      = exceptToOutcome ((stubBackend.preprocess_input 3).bind stubBackend.get_features) :=
  ⟨rfl, forward_c4_delegates stubSelector stubBackend 3 rfl⟩

/-- Claim C5: the specification says the framework identifier is computed
once in the constructor and the backend instance is created on first
request, cached, and reused by every later `forward` call. The code instead
never completes the constructor (its `identify_framework` call raises
`NameError`), never assigns `self.backend` anywhere (`get_backend` returns
without caching), and `forward` reads the absent `backend` attribute,
raising `AttributeError` on any state the constructor could have built. -/
theorem lifecycle_c5_broken :
    @construct Unit (.single "model.pt") "cpu" false
      = ([], .raised (.nameError "file_path"))
  ∧ forward (⟨some "pytorch", .single "model.pt", "cpu", false, none⟩ :
        Selector (Backend Nat Nat)) 0
      = .raised (.attributeError "backend") :=
  ⟨rfl, rfl⟩

/-- Claim C6: when the `weights` argument is a non-empty list, only its first
element determines the framework computation of the constructor: the logs
and framework outcome of construction are unchanged by the tail (and by the
other arguments), and equal those for the first element passed alone. -/
theorem construct_c6_first_weight_determines
    (p : String) (ps qs : List String) (d d' : String) (h h' : Bool) :
    frameworkOf (@construct Unit (.list (p :: ps)) d h)
      = frameworkOf (@construct Unit (.list (p :: qs)) d' h')
  ∧ frameworkOf (@construct Unit (.list (p :: ps)) d h)
      = frameworkOf (@construct Unit (.single p) d h) :=
  ⟨rfl, rfl⟩

/-- Witness for claim C6 at concrete lists. -/
theorem construct_c6_first_weight_determines_witness :
    frameworkOf (@construct Unit (.list ["model.pt", "x.onnx"]) "cpu" false)
      = frameworkOf (@construct Unit (.list ["model.pt"]) "cuda" true)
  ∧ frameworkOf (@construct Unit (.list ["model.pt", "x.onnx"]) "cpu" false)
      = frameworkOf (@construct Unit (.single "model.pt") "cpu" false) :=
  construct_c6_first_weight_determines "model.pt" ["x.onnx"] [] "cpu" "cuda" false true

/-- Claim C7: `check_suffix` returns normally on every input, logging one
error per file whose suffix is present but not accepted; on
`['a.pt', 'b.onnx']` with accepted suffix `.pt` it logs exactly the one
message for `b.onnx`. -/
theorem check_suffix_c7_flags_each_bad_suffix :
    (∀ (file : FileArg) (suffix : SuffixArg) (msg : String),
        (check_suffix file suffix msg).2 = .ok ()
      ∧ (check_suffix file suffix msg).1.length
          = ((normFiles file).filter (flagged (normSuffixes suffix))).length)
  ∧ check_suffix (.list ["a.pt", "b.onnx"]) (.str ".pt") ""
      = ([suffixErrMsg "b.onnx" [".pt"]], .ok ()) := by
  refine ⟨fun file suffix msg => ⟨rfl, check_suffix_log_count file suffix msg⟩, ?_⟩
  decide

/-- Witness for claim C7 at concrete arguments. -/
theorem check_suffix_c7_flags_each_bad_suffix_witness :
    (check_suffix (.single "a.pt") (.str ".pt") "").2 = .ok ()
  ∧ (check_suffix (.single "a.pt") (.str ".pt") "").1.length
      = ((normFiles (.single "a.pt")).filter (flagged (normSuffixes (.str ".pt")))).length :=
  check_suffix_c7_flags_each_bad_suffix.1 (.single "a.pt") (.str ".pt") ""

/-- Claim C8 counterexample: the claim says flagging depends neither on the
letter case of the file's suffix nor on that of the accepted suffixes; but
`a.pt` is not flagged against accepted suffix `.pt` while it is flagged
against `.PT`, so the accepted suffixes' case does matter (they are compared
verbatim, only the file's suffix being lowercased). -/
theorem check_suffix_c8_counterexample :
    (check_suffix (.single "a.pt") (.str ".pt") "").1.length = 0
  ∧ (check_suffix (.single "a.pt") (.str ".PT") "").1.length = 1 := by decide

/-- Claim C8 as amended: `check_suffix` lowercases the file's suffix before
comparing, so whether a file is flagged is invariant under the letter case
of the file's suffix; the accepted suffixes, however, are compared as
given. -/
theorem check_suffix_c8_file_case_insensitive
    (accepted : List String) (f g msg msg' : String)
    (h : pyLower (pySuffix f) = pyLower (pySuffix g)) :
    (check_suffix (.single f) (.tuple accepted) msg).1.length
      = (check_suffix (.single g) (.tuple accepted) msg').1.length := by
  have hfl : flagged accepted f = flagged accepted g := by
    unfold flagged
    rw [h]
  rw [check_suffix_log_count (.single f) (.tuple accepted) msg,
      check_suffix_log_count (.single g) (.tuple accepted) msg']
  show (List.filter (flagged accepted) [f]).length
      = (List.filter (flagged accepted) [g]).length
  simp only [List.filter_cons, List.filter_nil, hfl]
  cases hg : flagged accepted g <;> simp [hg]

/-- Witness for the amended claim C8 at a concrete pair of files differing
only in suffix case. -/
theorem check_suffix_c8_file_case_insensitive_witness :
    pyLower (pySuffix "a.PT") = pyLower (pySuffix "a.pt")
  ∧ (check_suffix (.single "a.PT") (.tuple [".pt"]) "").1.length
      = (check_suffix (.single "a.pt") (.tuple [".pt"]) "").1.length :=
  ⟨by decide,
   check_suffix_c8_file_case_insensitive [".pt"] "a.PT" "a.pt" "" "" (by decide)⟩

/-- Claim C9: the specification says the "not supported" log-and-exit of
`get_backend` (lines 67-68) is unreachable when `identify_framework`
returned an identifier, because some table entry then matches. In the code
the branch is indeed never reached, but not through a match: on every
selector state `get_backend` raises `AttributeError` on `self.pt` while
building the table (line 53), before any entry could be consulted - so it
neither logs the "not supported" message nor exits, and never returns a
backend either. -/
theorem get_backend_c9_crashes_before_table {RB : Type} (s : Selector RB) :
    get_backend s = ([], .raised (.attributeError "pt"))
  ∧ (get_backend s).1 = []
  ∧ (get_backend s).2 ≠ .exited :=
  ⟨rfl, rfl, fun hx => Outcome.noConfusion hx⟩

/-- Claim C10: a path with no suffix at all is never flagged by
`check_suffix`, whatever the accepted suffixes: the line-100 test requires a
nonempty (truthy) suffix, so such a file contributes no log message. -/
theorem check_suffix_c10_suffixless_never_flagged
    (suffix : SuffixArg) (msg f : String) (h : pySuffix f = "") :
    flagged (normSuffixes suffix) f = false
  ∧ check_suffix (.single f) suffix msg = ([], .ok ()) := by
  have h0 : pyLower "" = "" := rfl
  have hf : flagged (normSuffixes suffix) f = false := by
    unfold flagged
    rw [h, h0]
    simp
  refine ⟨hf, ?_⟩
  simp [check_suffix, normFiles, List.filterMap_cons, List.filterMap_nil, hf]

/-- Witness for claim C10 at the suffixless path `model`. -/
theorem check_suffix_c10_suffixless_never_flagged_witness :
    pySuffix "model" = ""
  ∧ (flagged (normSuffixes (.str ".pt")) "model" = false
     ∧ check_suffix (.single "model") (.str ".pt") "" = ([], .ok ())) :=
  ⟨by decide,
   check_suffix_c10_suffixless_never_flagged (.str ".pt") "" "model" (by decide)⟩

end Boxmot
